import Mathlib

/-!
# Theme Preference Controller — verification of the AstroBot dashboard theme logic

Shallow embedding of the client-side theme system of the AstroBot web
dashboard.  The JavaScript sources modelled here are:

* `static/js/theme-toggle.js` — `getThemePreference`, `applyTheme`,
  `window.setTheme`, `updateServerThemePreference`, and the
  `prefers-color-scheme` media-query listener;
* `static/js/alpine-init.js` — `determineTheme`, `applyThemeToHTML`, the
  Alpine `theme` store (`set`, `apply`, `toggle`) and its media listener;
* the `ThemeManager` object (`setTheme`, `saveThemePreference`,
  `toggleDarkMode`, `isDarkMode`, `dispatchThemeChanged`);
* the second Alpine store copy whose premium guard reads
  `!document.body.getAttribute('data-premium') === 'true'`.

DOM class lists are modelled as `List String` with `classList.add` /
`classList.remove` token semantics; host availability checks
(`typeof document`, `document.body`, `typeof window`, `typeof localStorage`)
become boolean flags in an environment record; `localStorage` is an
`Option String`; dispatched `theme-changed` events and issued fetch requests
are collected into effect lists.
-/

namespace AstroBot

/-! ## Theme registry (constants shared across the sources) -/

/-- `PREMIUM_THEMES = ['space', 'neon', 'contrast']`. -/
def PREMIUM_THEMES : List String := ["space", "neon", "contrast"]

/-- `DEFAULT_THEME = 'light'`. -/
def DEFAULT_THEME : String := "light"

/-- The five registry theme ids (`THEME_OPTIONS` in the ThemeManager source). -/
def VALID_THEMES : List String := ["light", "dark", "space", "neon", "contrast"]

/-- `isDarkTheme(theme)`: `theme === 'dark' || PREMIUM_THEMES.includes(theme)`. -/
def isDarkTheme (t : String) : Bool :=
  t == "dark" || PREMIUM_THEMES.contains t

/-- `isPremiumTheme(theme)`: `PREMIUM_THEMES.includes(theme)`. -/
def isPremiumTheme (t : String) : Bool :=
  PREMIUM_THEMES.contains t

/-- The CSS marker class of a theme id: the string `theme-` followed by the id. -/
def themeClass (t : String) : String := "theme-" ++ t

/-- The five theme marker classes removed by
`classList.remove('theme-light', 'theme-dark', 'theme-space', 'theme-neon', 'theme-contrast')`. -/
def THEME_MARKER_CLASSES : List String :=
  ["theme-light", "theme-dark", "theme-space", "theme-neon", "theme-contrast"]

/-! ## JavaScript value helpers -/

/-- JS truthiness of a nullable string (`null`, `undefined` and `""` are falsy). -/
def jsTruthyStr (o : Option String) : Bool :=
  match o with
  | none => false
  | some s => s != ""

/-- A JavaScript value, as far as the premium-guard expression needs: a string,
a boolean, or `null` (what `getAttribute` returns for a missing attribute). -/
inductive JsVal where
  | str (s : String)
  | bool (b : Bool)
  | null
deriving DecidableEq, Repr

/-- JS truthiness of a `JsVal` (non-empty strings and `true` are truthy). -/
def JsVal.truthy : JsVal → Bool
  | .str s => s != ""
  | .bool b => b
  | .null => false

/-- JS logical not `!v`: a boolean. -/
def jsNot (v : JsVal) : JsVal := .bool (!v.truthy)

/-- JS strict equality `===`: values of different runtime types are never equal. -/
def jsStrictEq : JsVal → JsVal → Bool
  | .str a, .str b => a == b
  | .bool a, .bool b => a == b
  | .null, .null => true
  | _, _ => false

/-- `document.body.getAttribute('data-premium')` as a `JsVal`
(`null` when the attribute is absent). -/
def attrVal (a : Option String) : JsVal :=
  match a with
  | none => .null
  | some s => .str s

/-! ## DOM model -/

/-- `classList.remove(c)`: drop every occurrence of the token. -/
def classRemove (l : List String) (c : String) : List String :=
  l.filter (fun x => x != c)

/-- `classList.add(c)`: append the token unless it is already present. -/
def classAdd (l : List String) (c : String) : List String :=
  if c ∈ l then l else l ++ [c]

/-- `classList.remove('theme-light', ..., 'theme-contrast')` in
`theme-toggle.js`'s `applyTheme`: drop all five theme marker classes. -/
def removeAllThemeMarkers (l : List String) : List String :=
  l.filter (fun x => !THEME_MARKER_CLASSES.contains x)

/-- `PREMIUM_THEMES.forEach(n => root.classList.remove('theme-' + n))` in
`alpine-init.js`'s `applyThemeToHTML`: drop the three premium marker classes. -/
def removePremiumMarkers (l : List String) : List String :=
  l.filter (fun x => !(PREMIUM_THEMES.map themeClass).contains x)

/-- Observable state of the page: the root element's class list and the
`data-theme` attribute on `document.body`. -/
structure DomState where
  rootClasses : List String
  bodyDataTheme : Option String
deriving DecidableEq, Repr

/-- Host environment availability flags and the two `document.body` data
attributes consulted by the theme code. -/
structure Env where
  docOk : Bool
  bodyOk : Bool
  winOk : Bool
  lsOk : Bool
  premiumAttr : Option String
  authAttr : Option String
deriving DecidableEq, Repr

/-- `data-user-authenticated === 'true'` check used before server sync. -/
def Env.isAuthenticated (e : Env) : Bool :=
  e.bodyOk && (e.authAttr == some "true")

/-- `data-premium === 'true'` check used by the Alpine store premium gate
(`typeof document !== 'undefined' && document.body && attr === 'true'`). -/
def Env.hasPremium (e : Env) : Bool :=
  e.bodyOk && (e.premiumAttr == some "true")

/-- Payload of the `theme-changed` CustomEvent: `{ theme, isDark }`. -/
structure ThemeEvent where
  theme : String
  isDark : Bool
deriving DecidableEq, Repr

/-! ## `theme-toggle.js` -/

/-- `getThemePreference()`: return the stored value when truthy, else the
system preference (`'dark'` when the media query matches, `DEFAULT_THEME`
otherwise). -/
def getThemePreference (stored : Option String) (sysDark : Bool) : String :=
  if jsTruthyStr stored then stored.getD ""
  else if sysDark then "dark" else DEFAULT_THEME

/-- `applyTheme(theme)` of `theme-toggle.js`, DOM part: when
`document.documentElement` is unavailable the function warns and returns;
otherwise it removes all five theme marker classes, adds or removes `dark`
according to `isDarkTheme`, adds the marker class for premium themes, and
sets `data-theme` on the body when it exists. -/
def ttApplyThemeDom (t : String) (e : Env) (d : DomState) : DomState :=
  if !e.docOk then d
  else
    let c1 := removeAllThemeMarkers d.rootClasses
    let c2 := if isDarkTheme t then classAdd c1 "dark" else classRemove c1 "dark"
    let c3 := if isPremiumTheme t then classAdd c2 (themeClass t) else c2
    { rootClasses := c3
      bodyDataTheme := if e.bodyOk then some t else d.bodyDataTheme }

/-- `applyTheme(theme)` of `theme-toggle.js`, event part: one
`theme-changed` event with `{ theme, isDark }`, dispatched only when the
document guard passed and `window`/`CustomEvent` exist. -/
def ttApplyThemeEvents (t : String) (e : Env) : List ThemeEvent :=
  if !e.docOk then []
  else if e.winOk then [⟨t, isDarkTheme t⟩] else []

/-- Outcome of the `fetch('/update_theme_preference', ...)` call: success, a
non-2xx HTTP status, a network-level failure, or a 2xx response whose JSON
body lacks `status: 'success'`. -/
inductive NetOutcome where
  | ok
  | httpError (code : Nat)
  | networkFailure
  | malformed
deriving DecidableEq, Repr

/-- `updateServerThemePreference(theme)` of `theme-toggle.js`: issues exactly
one POST request with body `{ theme }`; the `.then`/`.catch` handlers only
log (`console.warn`) on every non-success outcome and touch no other state. -/
def updateServerThemePreference (t : String) (o : NetOutcome) :
    List String × List String :=
  let req := [t]
  let logs :=
    match o with
    | .ok => []
    | .httpError code => ["Error updating theme preference: Server returned " ++ toString code]
    | .networkFailure => ["Error updating theme preference: network failure"]
    | .malformed => ["Theme preference update had non-success status"]
  (req, logs)

/-- Result of a `window.setTheme` call: the new DOM state, the new
`localStorage` contents, the dispatched events, the issued requests and the
console logs. -/
structure SetThemeResult where
  dom : DomState
  storage : Option String
  events : List ThemeEvent
  requests : List String
  logs : List String
deriving DecidableEq, Repr

/-- `window.setTheme(theme)` of `theme-toggle.js`: `if (!theme) return;`
then `applyTheme(theme)`, then `localStorage.setItem('theme', theme)` when
`localStorage` exists, then `updateServerThemePreference(theme)` when the
body reports an authenticated user. -/
def windowSetTheme (t : Option String) (e : Env) (d : DomState)
    (storage : Option String) (o : NetOutcome) : SetThemeResult :=
  if !jsTruthyStr t then
    { dom := d, storage := storage, events := [], requests := [], logs := [] }
  else
    let th := t.getD ""
    let d1 := ttApplyThemeDom th e d
    let evs := ttApplyThemeEvents th e
    let storage1 := if e.lsOk then some th else storage
    if e.isAuthenticated then
      let (req, logs) := updateServerThemePreference th o
      { dom := d1, storage := storage1, events := evs, requests := req, logs := logs }
    else
      { dom := d1, storage := storage1, events := evs, requests := [], logs := [] }

/-- The `prefers-color-scheme` change listener of `theme-toggle.js`: only
when no stored preference exists (`!localStorage.getItem('theme')`) does it
apply the system-implied theme. -/
def ttMediaChange (mq : Bool) (e : Env) (d : DomState)
    (storage : Option String) : DomState × List ThemeEvent :=
  if jsTruthyStr storage then (d, [])
  else
    let newTheme := if mq then "dark" else "light"
    (ttApplyThemeDom newTheme e d, ttApplyThemeEvents newTheme e)

/-! ## `alpine-init.js` module-level functions -/

/-- `determineTheme()`: `getSavedTheme() || getPreferredColorScheme()` —
the stored value when truthy, else `'dark'`/`'light'` from the media query. -/
def determineTheme (saved : Option String) (sysDark : Bool) : String :=
  if jsTruthyStr saved then saved.getD ""
  else if sysDark then "dark" else "light"

/-- `applyThemeToHTML(theme)`, DOM part: no-op when `document.documentElement`
is unavailable; otherwise remove the three premium marker classes, add or
remove `dark` by `isDarkTheme`, and add the marker class for premium themes.
The body `data-theme` attribute is not touched here. -/
def applyThemeToHTMLDom (t : String) (e : Env) (d : DomState) : DomState :=
  if !e.docOk then d
  else
    let c1 := removePremiumMarkers d.rootClasses
    let c2 := if isDarkTheme t then classAdd c1 "dark" else classRemove c1 "dark"
    let c3 := if isPremiumTheme t then classAdd c2 (themeClass t) else c2
    { d with rootClasses := c3 }

/-- `applyThemeToHTML(theme)`, module-variable part: `currentTheme = theme`
runs only after the document guard passed. -/
def applyThemeToHTMLGlobal (t : String) (e : Env) (g : String) : String :=
  if !e.docOk then g else t

/-! ## Alpine `theme` store (`alpine-init.js`) -/

/-- Fields of `Alpine.store('theme', ...)`. -/
structure ThemeStore where
  current : String
  isDark : Bool
  menuOpen : Bool
deriving DecidableEq, Repr

/-- Whole-page state threaded through the Alpine store operations. -/
structure AlpineState where
  store : ThemeStore
  globalCurrent : String
  dom : DomState
  storage : Option String
deriving DecidableEq, Repr

/-- Effects produced by a store operation. -/
structure Effects where
  events : List ThemeEvent
  requests : List String
  logs : List String
deriving DecidableEq, Repr

/-- `Alpine.store('theme').apply(themeName)`: `applyThemeToHTML`, then
`this.current`/`this.isDark` are set, `localStorage` is written when
available, the body `data-theme` attribute and the authenticated server sync
happen when the body exists, and one `theme-changed` event is dispatched
when `window` exists. -/
def storeApply (t : String) (e : Env) (s : AlpineState) : AlpineState × Effects :=
  let dom1 := applyThemeToHTMLDom t e s.dom
  let g1 := applyThemeToHTMLGlobal t e s.globalCurrent
  let store1 : ThemeStore :=
    { current := t, isDark := isDarkTheme t, menuOpen := s.store.menuOpen }
  let storage1 := if e.lsOk then some t else s.storage
  let dom2 := if e.bodyOk then { dom1 with bodyDataTheme := some t } else dom1
  let reqs := if e.bodyOk && e.isAuthenticated then [t] else []
  let evs := if e.winOk then [ThemeEvent.mk t (isDarkTheme t)] else []
  ({ store := store1, globalCurrent := g1, dom := dom2, storage := storage1 },
   { events := evs, requests := reqs, logs := [] })

/-- `Alpine.store('theme').set(themeName)`: the premium gate rejects a
premium theme without `data-premium === 'true'` (a console warning, no state
change); otherwise `current`/`isDark` are set, `apply` runs, and the menu is
closed. -/
def storeSet (t : String) (e : Env) (s : AlpineState) : AlpineState × Effects :=
  if isPremiumTheme t && !e.hasPremium then
    (s, { events := [], requests := [],
          logs := ["Cannot apply premium theme - user does not have premium subscription"] })
  else
    let s1 : AlpineState :=
      { s with store := { current := t, isDark := isDarkTheme t, menuOpen := s.store.menuOpen } }
    let (s2, eff) := storeApply t e s1
    ({ s2 with store := { s2.store with menuOpen := false } }, eff)

/-- `Alpine.store('theme').toggle()`: flip `isDark`, pick `'dark'`/`'light'`
accordingly, and `apply` it. -/
def storeToggle (e : Env) (s : AlpineState) : AlpineState × Effects :=
  let isDark1 := !s.store.isDark
  let cur1 := if isDark1 then "dark" else "light"
  let s1 : AlpineState :=
    { s with store := { current := cur1, isDark := isDark1, menuOpen := s.store.menuOpen } }
  storeApply cur1 e s1

/-- The `prefers-color-scheme` change listener installed by `alpine-init.js`:
when no saved theme exists it runs `applyThemeToHTML` on the system-implied
theme and refreshes the body `data-theme` attribute. -/
def alpineMediaChange (mq : Bool) (e : Env) (s : AlpineState) : AlpineState :=
  if jsTruthyStr s.storage then s
  else
    let newTheme := if mq then "dark" else "light"
    let dom1 := applyThemeToHTMLDom newTheme e s.dom
    let g1 := applyThemeToHTMLGlobal newTheme e s.globalCurrent
    let dom2 := if e.bodyOk then { dom1 with bodyDataTheme := some newTheme } else dom1
    { s with dom := dom2, globalCurrent := g1 }

/-! ## `ThemeManager` (the duplicated theme manager object) -/

/-- The ids of `THEME_OPTIONS`, in declaration order. -/
def THEME_OPTION_IDS : List String := ["light", "dark", "space", "neon", "contrast"]

/-- Mutable fields of `window.ThemeManager` used by the claims. -/
structure TMState where
  theme : String
  selectedTheme : String
  darkMode : Bool
deriving DecidableEq, Repr

/-- `ThemeManager.isDarkMode()`: `[DARK, SPACE, NEON].includes(this.theme)` —
note that `CONTRAST` is absent from this list. -/
def TMState.isDarkMode (s : TMState) : Bool :=
  ["dark", "space", "neon"].contains s.theme

/-- The dark-class predicate used inside `ThemeManager.setTheme`:
`[DARK, SPACE, NEON, CONTRAST].includes(theme)`. -/
def tmSetThemeIsDark (t : String) : Bool :=
  ["dark", "space", "neon", "contrast"].contains t

/-- The `THEME_OPTIONS.forEach` loop of `ThemeManager.setTheme`: add the
marker of the selected theme, remove the markers of the other four. -/
def tmMarkerLoop (t : String) (l : List String) : List String :=
  THEME_OPTION_IDS.foldl
    (fun acc id => if id == t then classAdd acc (themeClass id)
                   else classRemove acc (themeClass id)) l

/-- `ThemeManager.setTheme(theme)`: update the marker classes and the `dark`
class on the root, store `theme`/`selectedTheme`, recompute `darkMode` via
`isDarkMode()`, and dispatch one `theme-changed` event whose `isDark` is
`this.isDarkMode()`. -/
def tmSetTheme (t : String) (_s : TMState) (d : DomState) :
    TMState × DomState × List ThemeEvent :=
  let c1 := tmMarkerLoop t d.rootClasses
  let isDark := tmSetThemeIsDark t
  let c2 := if isDark then classAdd c1 "dark" else classRemove c1 "dark"
  let s1 : TMState := { theme := t, selectedTheme := t, darkMode := false }
  let s2 := { s1 with darkMode := s1.isDarkMode }
  (s2, { d with rootClasses := c2 }, [⟨t, s2.isDarkMode⟩])

/-- `ThemeManager.saveThemePreference(theme)`: write `localStorage` and
dispatch a second `theme-changed` event (again with `this.isDarkMode()`). -/
def tmSaveThemePreference (t : String) (s : TMState) (_storage : Option String) :
    Option String × List ThemeEvent :=
  (some t, [⟨t, s.isDarkMode⟩])

/-- `ThemeManager.toggleDarkMode()`: pick the opposite of `isDarkMode()`,
flip `darkMode`, then `setTheme(newTheme)` and `saveThemePreference(newTheme)`. -/
def tmToggleDarkMode (s : TMState) (d : DomState) (storage : Option String) :
    TMState × DomState × Option String × List ThemeEvent :=
  let newTheme := if s.isDarkMode then "light" else "dark"
  let s0 := { s with darkMode := !s.darkMode }
  let (s1, d1, ev1) := tmSetTheme newTheme s0 d
  let (storage1, ev2) := tmSaveThemePreference newTheme s1 storage
  (s1, d1, storage1, ev1 ++ ev2)

/-- `ThemeManager.setPremiumTheme(themeId)` with `this.premium` true (or a
non-premium id): sets `selectedTheme`/`darkMode`, then `setTheme` and
`saveThemePreference`. -/
def tmSetPremiumTheme (t : String) (premium : Bool) (s : TMState) (d : DomState)
    (storage : Option String) :
    TMState × DomState × Option String × List ThemeEvent :=
  if !premium && isPremiumTheme t then (s, d, storage, [])
  else if isPremiumTheme t || t == "light" || t == "dark" then
    let s0 := { s with selectedTheme := t,
                       darkMode := t == "dark" || isPremiumTheme t }
    let (s1, d1, ev1) := tmSetTheme t s0 d
    let (storage1, ev2) := tmSaveThemePreference t s1 storage
    (s1, d1, storage1, ev1 ++ ev2)
  else (s, d, storage, [])

/-! ## The second Alpine store copy (precedence-bugged premium guard) -/

/-- The premium guard expression of the second Alpine store copy:
`this.isPremiumTheme(themeName) && !document.body.getAttribute('data-premium') === 'true'`.
JavaScript parses the right conjunct as `(!attr) === 'true'`: logical not
binds tighter than strict equality. -/
def part4PremiumGuard (t : String) (premiumAttr : Option String) : Bool :=
  isPremiumTheme t && jsStrictEq (jsNot (attrVal premiumAttr)) (.str "true")

/-- `set(themeName)` of the second Alpine store copy: return early when the
guard holds, else update `current`/`isDark`, apply (storage write, body
attribute, one event), and close the menu. -/
def part4StoreSet (t : String) (premiumAttr : Option String) (e : Env)
    (s : AlpineState) : AlpineState × Effects :=
  if part4PremiumGuard t premiumAttr then
    (s, { events := [], requests := [],
          logs := ["Cannot apply premium theme - user does not have premium subscription"] })
  else
    let isDark1 := t == "dark" || isPremiumTheme t
    let dom1 :=
      if !e.docOk then s.dom
      else
        let c1 := removePremiumMarkers s.dom.rootClasses
        let c2 := if isDark1 then classAdd c1 "dark" else classRemove c1 "dark"
        let c3 := if isPremiumTheme t then classAdd c2 (themeClass t) else c2
        { s.dom with rootClasses := c3 }
    let storage1 := some t
    let dom2 := if e.bodyOk then { dom1 with bodyDataTheme := some t } else dom1
    let reqs := if e.bodyOk && e.isAuthenticated then [t] else []
    ({ store := { current := t, isDark := isDark1, menuOpen := false },
       globalCurrent := s.globalCurrent, dom := dom2, storage := storage1 },
     { events := [⟨t, isDark1⟩], requests := reqs, logs := [] })

/-! ## The shared class-pipeline shape of the applicators

Both `applyTheme` (theme-toggle.js) and `applyThemeToHTML` (alpine-init.js)
transform the root class list the same way: filter out a fixed set of marker
classes, add or remove `dark`, then add the new marker for premium themes.
`classPipeline` abstracts that shape so the idempotence and residual-marker
lemmas can be shared. -/

/-- The three-stage class-list transformation: remove every class in `S`,
add/remove `dark` according to `dark`, append the marker `m` when `prem`. -/
def classPipeline (S : List String) (dark prem : Bool) (m : String)
    (l : List String) : List String :=
  let c1 := l.filter (fun x => !S.contains x)
  let c2 := if dark then classAdd c1 "dark" else classRemove c1 "dark"
  if prem then classAdd c2 m else c2

/-! ## Concrete fixtures -/

/-- A fully available page: no premium entitlement, authenticated user. -/
def envFull : Env := ⟨true, true, true, true, some "false", some "true"⟩

/-- A fully available page with premium entitlement. -/
def envPremiumUser : Env := ⟨true, true, true, true, some "true", some "true"⟩

/-- Early page load: neither `document.documentElement` nor `document.body`
exist yet. -/
def envNoDoc : Env := ⟨false, false, true, true, none, none⟩

/-- An empty root element. -/
def domEmpty : DomState := ⟨[], none⟩

/-- A root element carrying the space theme. -/
def domSpace : DomState := ⟨["dark", "theme-space"], some "space"⟩

/-- Alpine state on the light theme with nothing stored. -/
def stateLight : AlpineState := ⟨⟨"light", false, false⟩, "light", domEmpty, none⟩

/-- ThemeManager state on the light theme. -/
def tmLight : TMState := ⟨"light", "light", false⟩

/-! ## Class-list lemmas -/

theorem mem_classAdd {l : List String} {c x : String} :
    x ∈ classAdd l c ↔ x ∈ l ∨ x = c := by
  unfold classAdd
  split
  · rename_i h
    constructor
    · exact fun hx => Or.inl hx
    · rintro (hx | rfl)
      · exact hx
      · exact h
  · simp [List.mem_append]

theorem mem_classAdd_self (l : List String) (c : String) : c ∈ classAdd l c :=
  mem_classAdd.mpr (Or.inr rfl)

theorem classAdd_of_mem {l : List String} {c : String} (h : c ∈ l) :
    classAdd l c = l := by
  simp [classAdd, h]

theorem classAdd_idem (l : List String) (c : String) :
    classAdd (classAdd l c) c = classAdd l c :=
  classAdd_of_mem (mem_classAdd_self l c)

theorem mem_classRemove {l : List String} {c x : String} :
    x ∈ classRemove l c ↔ x ∈ l ∧ x ≠ c := by
  simp [classRemove, List.mem_filter]

theorem classRemove_idem (l : List String) (c : String) :
    classRemove (classRemove l c) c = classRemove l c := by
  unfold classRemove
  rw [List.filter_eq_self]
  intro a ha
  exact (List.mem_filter.mp ha).2

theorem filter_eq_self_of_not_mem {S : List String} {l : List String}
    (h : ∀ x ∈ l, x ∉ S) :
    l.filter (fun x => !S.contains x) = l := by
  rw [List.filter_eq_self]
  intro a ha
  simpa using h a ha

/-- Every element surviving the marker filter is outside `S`. -/
theorem not_mem_of_mem_filter {S l : List String} {x : String}
    (h : x ∈ l.filter (fun y => !S.contains y)) : x ∉ S := by
  have := (List.mem_filter.mp h).2
  simpa using this

/-- Elements of the dark add/remove stage come from the filtered list or are
the literal `dark` token. -/
theorem mem_darkStage {c1 : List String} {dark : Bool} {x : String}
    (h : x ∈ (if dark then classAdd c1 "dark" else classRemove c1 "dark")) :
    x ∈ c1 ∨ x = "dark" := by
  by_cases hd : dark
  · rw [if_pos hd] at h
    exact mem_classAdd.mp h
  · rw [if_neg hd] at h
    exact Or.inl (mem_classRemove.mp h).1

/-- A class of `S` can survive `classPipeline` only as the freshly added
premium marker `m`. -/
theorem mem_classPipeline_of_mem_markers {S : List String} {dark prem : Bool}
    {m x : String} {l : List String}
    (hdark : "dark" ∉ S) (hx : x ∈ S)
    (hmem : x ∈ classPipeline S dark prem m l) : prem = true ∧ x = m := by
  unfold classPipeline at hmem
  have hc2 : ∀ y ∈ (if dark then classAdd (l.filter (fun z => !S.contains z)) "dark"
      else classRemove (l.filter (fun z => !S.contains z)) "dark"), y ∉ S := by
    intro y hy
    rcases mem_darkStage hy with h1 | rfl
    · exact not_mem_of_mem_filter h1
    · exact hdark
  by_cases hp : prem
  · rw [if_pos hp] at hmem
    rcases mem_classAdd.mp hmem with h1 | rfl
    · exact absurd hx (hc2 x h1)
    · exact ⟨hp, rfl⟩
  · rw [if_neg hp] at hmem
    exact absurd hx (hc2 x hmem)

/-- The class pipeline is idempotent whenever the `dark` token is not among
the filtered markers and the added marker is itself filtered. -/
theorem classPipeline_idem (S : List String) (dark prem : Bool) (m : String)
    (hdark : "dark" ∉ S) (hm : prem = true → m ∈ S) (l : List String) :
    classPipeline S dark prem m (classPipeline S dark prem m l) =
      classPipeline S dark prem m l := by
  have hc1free : ∀ x ∈ l.filter (fun z => !S.contains z), x ∉ S :=
    fun x hx => not_mem_of_mem_filter hx
  set c1 := l.filter (fun z => !S.contains z) with hc1
  set c2 := if dark then classAdd c1 "dark" else classRemove c1 "dark" with hc2def
  have hc2free : ∀ y ∈ c2, y ∉ S := by
    intro y hy
    rcases mem_darkStage hy with h1 | rfl
    · exact hc1free y h1
    · exact hdark
  set c3 := if prem then classAdd c2 m else c2 with hc3def
  -- Stage 1 of the second run: filtering `c3` gives back `c2`.
  have hfilter : c3.filter (fun z => !S.contains z) = c2 := by
    by_cases hp : prem
    · have hmS : m ∈ S := hm hp
      have hmnot : m ∉ c2 := fun hmem => hc2free m hmem hmS
      have : c3 = c2 ++ [m] := by
        rw [hc3def, if_pos hp]
        simp [classAdd, hmnot]
      rw [this, List.filter_append, filter_eq_self_of_not_mem hc2free]
      simp [hmS]
    · have : c3 = c2 := by rw [hc3def, if_neg hp]
      rw [this, filter_eq_self_of_not_mem hc2free]
  -- Stage 2 of the second run: the dark stage fixes `c2`.
  have hdarkfix : (if dark then classAdd c2 "dark" else classRemove c2 "dark") = c2 := by
    by_cases hd : dark
    · rw [if_pos hd, hc2def, if_pos hd, classAdd_idem]
    · rw [if_neg hd, hc2def, if_neg hd, classRemove_idem]
  show classPipeline S dark prem m c3 = c3
  unfold classPipeline
  rw [hfilter]
  simp only []
  rw [hdarkfix]

/-! ## Theme registry lemmas -/

theorem dark_not_mem_theme_markers : "dark" ∉ THEME_MARKER_CLASSES := by decide

theorem dark_not_mem_premium_markers : "dark" ∉ PREMIUM_THEMES.map themeClass := by decide

theorem premium_marker_mem_theme_markers {t : String} (h : isPremiumTheme t = true) :
    themeClass t ∈ THEME_MARKER_CLASSES := by
  simp [isPremiumTheme, PREMIUM_THEMES] at h
  rcases h with rfl | rfl | rfl <;> decide

theorem premium_marker_mem_premium_markers {t : String} (h : isPremiumTheme t = true) :
    themeClass t ∈ PREMIUM_THEMES.map themeClass := by
  simp [isPremiumTheme, PREMIUM_THEMES] at h
  rcases h with rfl | rfl | rfl <;> decide

theorem valid_marker_mem_theme_markers {t : String} (h : t ∈ VALID_THEMES) :
    themeClass t ∈ THEME_MARKER_CLASSES := by
  simp [VALID_THEMES] at h
  rcases h with rfl | rfl | rfl | rfl | rfl <;> decide

theorem themeClass_inj {a b : String} (h : themeClass a = themeClass b) : a = b := by
  have hd := congrArg String.data h
  simp [themeClass, String.data_append] at hd
  exact String.ext hd

/-- The root-class part of `applyTheme` (theme-toggle.js) is an instance of
`classPipeline` over all five markers. -/
theorem ttApplyThemeDom_rootClasses {t : String} {e : Env} {d : DomState}
    (h : e.docOk = true) :
    (ttApplyThemeDom t e d).rootClasses =
      classPipeline THEME_MARKER_CLASSES (isDarkTheme t) (isPremiumTheme t)
        (themeClass t) d.rootClasses := by
  simp [ttApplyThemeDom, classPipeline, removeAllThemeMarkers, h]

/-- The root-class part of `applyThemeToHTML` (alpine-init.js) is an instance
of `classPipeline` over the three premium markers. -/
theorem applyThemeToHTMLDom_rootClasses {t : String} {e : Env} {d : DomState}
    (h : e.docOk = true) :
    (applyThemeToHTMLDom t e d).rootClasses =
      classPipeline (PREMIUM_THEMES.map themeClass) (isDarkTheme t) (isPremiumTheme t)
        (themeClass t) d.rootClasses := by
  simp [applyThemeToHTMLDom, classPipeline, removePremiumMarkers, h]

/-- `applyTheme` (theme-toggle.js) in record form when the document exists. -/
theorem ttApplyThemeDom_eq {t : String} {e : Env} {d : DomState}
    (h : e.docOk = true) :
    ttApplyThemeDom t e d =
      { rootClasses := classPipeline THEME_MARKER_CLASSES (isDarkTheme t)
          (isPremiumTheme t) (themeClass t) d.rootClasses
        bodyDataTheme := if e.bodyOk then some t else d.bodyDataTheme } := by
  simp [ttApplyThemeDom, classPipeline, removeAllThemeMarkers, h]

/-- `applyThemeToHTML` (alpine-init.js) in record form when the document
exists: the body attribute is untouched. -/
theorem applyThemeToHTMLDom_eq {t : String} {e : Env} {d : DomState}
    (h : e.docOk = true) :
    applyThemeToHTMLDom t e d =
      { rootClasses := classPipeline (PREMIUM_THEMES.map themeClass) (isDarkTheme t)
          (isPremiumTheme t) (themeClass t) d.rootClasses
        bodyDataTheme := d.bodyDataTheme } := by
  simp [applyThemeToHTMLDom, classPipeline, removePremiumMarkers, h]

/-! ## Claims -/

/-- C1 counterexample: the stored value `"retro"` is not a registry theme id,
yet with the system preferring dark both resolver copies return `"retro"`
verbatim instead of falling through to `"dark"` as the claim states. -/
theorem c1_invalid_stored_counterexample :
    getThemePreference (some "retro") true = "retro" ∧
    determineTheme (some "retro") true = "retro" ∧
    VALID_THEMES.contains "retro" = false ∧
    "retro" ≠ "dark" := by decide

/-- C1 (amended): initial-theme resolution returns any non-empty stored value
verbatim, with no registry-validity check; only an absent or empty stored
value falls through to the system preference (`"dark"` when it prefers dark,
`"light"` otherwise), and both resolver copies agree; resolution is a total
function, so it never crashes. -/
theorem c1_resolution_returns_truthy_stored_verbatim (v : String) (d : Bool) :
    (v ≠ "" → getThemePreference (some v) d = v) ∧
    getThemePreference none d = (if d then "dark" else "light") ∧
    getThemePreference (some "") d = (if d then "dark" else "light") ∧
    determineTheme (some v) d = getThemePreference (some v) d ∧
    determineTheme none d = getThemePreference none d := by
  refine ⟨fun hv => ?_, ?_, ?_, ?_, ?_⟩
  · simp [getThemePreference, jsTruthyStr, hv]
  · simp [getThemePreference, jsTruthyStr, DEFAULT_THEME]
  · simp [getThemePreference, jsTruthyStr, DEFAULT_THEME]
  · by_cases hv : v = "" <;>
      simp [getThemePreference, determineTheme, jsTruthyStr, DEFAULT_THEME, hv]
  · simp [getThemePreference, determineTheme, jsTruthyStr, DEFAULT_THEME]

/-- Witness for the amended C1 theorem at the stored value `"retro"`. -/
theorem c1_resolution_witness :
    "retro" ≠ "" ∧ getThemePreference (some "retro") true = "retro" :=
  ⟨by decide, (c1_resolution_returns_truthy_stored_verbatim "retro" true).1 (by decide)⟩

/-- C2: in the second Alpine store copy the premium guard
`!document.body.getAttribute('data-premium') === 'true'` parses as
`(!attr) === 'true'`, a boolean compared to a string, which is always false —
so `set("neon")` without entitlement still changes `current` and storage.
The other store copy (`alpine-init.js`) implements the gate correctly:
without entitlement the state is unchanged and only a warning is logged,
and with entitlement `set("neon")` yields `current = "neon"`, `isDark = true`. -/
theorem c2_part4_premium_gate_never_rejects :
    jsStrictEq (jsNot (attrVal (some "false"))) (.str "true") = false ∧
    jsStrictEq (jsNot (attrVal none)) (.str "true") = false ∧
    (part4StoreSet "neon" (some "false") envFull stateLight).1.store.current = "neon" ∧
    (part4StoreSet "neon" (some "false") envFull stateLight).1.storage = some "neon" ∧
    stateLight.store.current = "light" ∧
    (storeSet "neon" envFull stateLight).1 = stateLight ∧
    (storeSet "neon" envFull stateLight).2.logs ≠ [] ∧
    (storeSet "neon" envPremiumUser stateLight).1.store.current = "neon" ∧
    (storeSet "neon" envPremiumUser stateLight).1.store.isDark = true := by decide

/-- C3: after `ThemeManager.setTheme("contrast")` the state's `darkMode` flag
is `false` — `isDarkMode()` omits `'contrast'` — even though the
registry-derived darkness of `'contrast'` is `true` and the root element was
given the `dark` class by the very same call; the dispatched event carries
the same inconsistent `isDark: false`.  The Alpine store, by contrast,
recomputes `isDark` correctly. -/
theorem c3_thememanager_contrast_darkmode_drift :
    (tmSetTheme "contrast" tmLight domEmpty).1.darkMode = false ∧
    isDarkTheme "contrast" = true ∧
    "dark" ∈ (tmSetTheme "contrast" tmLight domEmpty).2.1.rootClasses ∧
    (tmSetTheme "contrast" tmLight domEmpty).2.2 = [⟨"contrast", false⟩] ∧
    (storeSet "contrast" envPremiumUser stateLight).1.store.isDark = true := by decide

/-- C4: applying theme `t1` and then a different theme `t2` with
`applyTheme` (theme-toggle.js) leaves no `theme-t1` marker class on the root
element, and every registry marker still present is `t2`'s own. -/
theorem c4_no_residual_markers (t1 t2 : String) (e : Env) (d : DomState)
    (h1 : t1 ∈ VALID_THEMES) (_h2 : t2 ∈ VALID_THEMES) (hne : t1 ≠ t2)
    (hdoc : e.docOk = true) :
    themeClass t1 ∉ (ttApplyThemeDom t2 e (ttApplyThemeDom t1 e d)).rootClasses ∧
    ∀ u ∈ VALID_THEMES,
      themeClass u ∈ (ttApplyThemeDom t2 e (ttApplyThemeDom t1 e d)).rootClasses →
        u = t2 := by
  have key : ∀ u ∈ VALID_THEMES,
      themeClass u ∈ (ttApplyThemeDom t2 e (ttApplyThemeDom t1 e d)).rootClasses →
        u = t2 := by
    intro u hu hmem
    rw [ttApplyThemeDom_rootClasses hdoc] at hmem
    have hres := mem_classPipeline_of_mem_markers dark_not_mem_theme_markers
      (valid_marker_mem_theme_markers hu) hmem
    exact themeClass_inj hres.2
  exact ⟨fun hmem => hne (key t1 h1 hmem), key⟩

/-- Witness for C4: `set("space")` then `set("light")` leaves no
`theme-space` marker on the root. -/
theorem c4_no_residual_markers_witness :
    "space" ≠ "light" ∧
    themeClass "space" ∉
      (ttApplyThemeDom "light" envFull (ttApplyThemeDom "space" envFull domEmpty)).rootClasses :=
  ⟨by decide,
   (c4_no_residual_markers "space" "light" envFull domEmpty
      (by decide) (by decide) (by decide) (by decide)).1⟩

/-- C5 counterexample: with the DOM unavailable (`envNoDoc`), the Alpine
store's `apply("dark")` does not leave the theme state unchanged: `current`
moves from `"light"` to `"dark"`, contradicting the claim. -/
theorem c5_store_apply_counterexample :
    envNoDoc.docOk = false ∧
    stateLight.store.current = "light" ∧
    (storeApply "dark" envNoDoc stateLight).1.store.current = "dark" := by decide

/-- C5 (amended): when the DOM surface is unavailable, the operations return
silently (they are total functions, no exception path): `applyTheme`
(theme-toggle.js) changes nothing and dispatches nothing, and the Alpine
store's `apply` leaves the DOM and the module-level `currentTheme` untouched
and issues no server request — but it still updates the store's logical
state, setting `current` to the requested theme, `isDark` to its derived
darkness, and persisting the preference when storage is available. -/
theorem c5_apply_no_dom_silent (t : String) (e : Env) (s : AlpineState)
    (d : DomState) (hdoc : e.docOk = false) (hbody : e.bodyOk = false) :
    ttApplyThemeDom t e d = d ∧
    ttApplyThemeEvents t e = [] ∧
    (storeApply t e s).1.dom = s.dom ∧
    (storeApply t e s).1.globalCurrent = s.globalCurrent ∧
    (storeApply t e s).1.store.current = t ∧
    (storeApply t e s).1.store.isDark = isDarkTheme t ∧
    (storeApply t e s).1.storage = (if e.lsOk then some t else s.storage) ∧
    (storeApply t e s).2.requests = [] := by
  simp [ttApplyThemeDom, ttApplyThemeEvents, storeApply, applyThemeToHTMLDom,
        applyThemeToHTMLGlobal, Env.isAuthenticated, hdoc, hbody]

/-- Witness for the amended C5 theorem: early page load, `apply("dark")`. -/
theorem c5_apply_no_dom_silent_witness :
    envNoDoc.docOk = false ∧
    (storeApply "dark" envNoDoc stateLight).1.dom = stateLight.dom :=
  ⟨by decide,
   (c5_apply_no_dom_silent "dark" envNoDoc stateLight domEmpty
      (by decide) (by decide)).2.2.1⟩

/-- C6 counterexample: `ThemeManager` operations that set and persist a theme
dispatch two `theme-changed` events for the one operation — one from
`setTheme`, one from `saveThemePreference` — not exactly one as claimed. -/
theorem c6_double_dispatch_counterexample :
    (tmSetPremiumTheme "space" true tmLight domEmpty none).2.2.2.length = 2 ∧
    (tmToggleDarkMode tmLight domEmpty none).2.2.2.length = 2 := by decide

/-- C6 (amended): the Alpine store's successful `set` and `apply` each
dispatch exactly one `theme-changed` event with payload
`{ theme: t, isDark: derived darkness of t }`, and `ThemeManager.setTheme`
alone dispatches exactly one event; but the ThemeManager user operations
that both set and persist (`toggleDarkMode`, `setPremiumTheme`) dispatch two
events for the one operation. -/
theorem c6_event_dispatch_counts (t : String) (e : Env) (s : AlpineState)
    (tm : TMState) (d : DomState) (st : Option String)
    (hwin : e.winOk = true)
    (hgate : ¬(isPremiumTheme t = true ∧ e.hasPremium = false)) :
    (storeSet t e s).2.events = [⟨t, isDarkTheme t⟩] ∧
    (storeApply t e s).2.events = [⟨t, isDarkTheme t⟩] ∧
    (tmSetTheme t tm d).2.2.length = 1 ∧
    (tmToggleDarkMode tm d st).2.2.2.length = 2 := by
  have happly : (storeApply t e s).2.events = [⟨t, isDarkTheme t⟩] := by
    simp [storeApply, hwin]
  refine ⟨?_, happly, ?_, ?_⟩
  · unfold storeSet
    by_cases hp : isPremiumTheme t
    · have hprem : e.hasPremium = true := by
        by_cases hh : e.hasPremium
        · exact hh
        · exact absurd ⟨hp, by simpa using hh⟩ hgate
      simp [hp, hprem, storeApply, hwin]
    · simp [hp, storeApply, hwin]
  · simp [tmSetTheme]
  · simp [tmToggleDarkMode, tmSetTheme, tmSaveThemePreference]

/-- Witness for the amended C6 theorem: an entitled `set("neon")`. -/
theorem c6_event_dispatch_counts_witness :
    envPremiumUser.winOk = true ∧
    (storeSet "neon" envPremiumUser stateLight).2.events =
      [⟨"neon", isDarkTheme "neon"⟩] :=
  ⟨by decide,
   (c6_event_dispatch_counts "neon" envPremiumUser stateLight tmLight domEmpty none
      (by decide) (by decide)).1⟩

/-- C7: after an explicit `window.setTheme(th)` the stored preference is
`th`, and every subsequent OS color-scheme change event is ignored by both
media listeners: the DOM is unchanged and no event is dispatched, for either
value of the new system preference, as long as a stored preference exists. -/
theorem c7_explicit_set_suppresses_watcher (th : String) (e : Env)
    (d : DomState) (st : Option String) (o : NetOutcome) (m : Bool)
    (s : AlpineState) (t : String)
    (hth : th ≠ "") (hls : e.lsOk = true) (ht : t ≠ "") :
    (windowSetTheme (some th) e d st o).storage = some th ∧
    ttMediaChange m e (windowSetTheme (some th) e d st o).dom
        (windowSetTheme (some th) e d st o).storage =
      ((windowSetTheme (some th) e d st o).dom, []) ∧
    (storeApply t e s).1.storage = some t ∧
    alpineMediaChange m e (storeApply t e s).1 = (storeApply t e s).1 := by
  have hstor : (windowSetTheme (some th) e d st o).storage = some th := by
    unfold windowSetTheme
    simp only [jsTruthyStr]
    rw [if_neg (by simpa using hth)]
    by_cases ha : e.isAuthenticated <;> simp [ha, hls, updateServerThemePreference]
  have hstor2 : (storeApply t e s).1.storage = some t := by
    simp [storeApply, hls]
  refine ⟨hstor, ?_, hstor2, ?_⟩
  · rw [hstor]
    unfold ttMediaChange
    rw [if_pos (by simpa [jsTruthyStr] using hth)]
  · unfold alpineMediaChange
    rw [hstor2, if_pos (by simpa [jsTruthyStr] using ht)]

/-- Witness for C7: `setTheme("light")`, then the OS flips to dark; the DOM
keeps the light theme. -/
theorem c7_explicit_set_suppresses_watcher_witness :
    "light" ≠ "" ∧
    ttMediaChange true envFull
        (windowSetTheme (some "light") envFull domSpace none .ok).dom
        (windowSetTheme (some "light") envFull domSpace none .ok).storage =
      ((windowSetTheme (some "light") envFull domSpace none .ok).dom, []) :=
  ⟨by decide,
   (c7_explicit_set_suppresses_watcher "light" envFull domSpace none .ok true
      stateLight "light" (by decide) (by decide) (by decide)).2.1⟩

/-- C8: both applicators are idempotent on the observable root-element state
(class list and `data-theme` attribute): applying the same theme twice
yields exactly the DOM state of a single application, with no duplicated
classes, for every theme id and every starting DOM. -/
theorem c8_apply_idempotent (t : String) (e : Env) (d : DomState) :
    ttApplyThemeDom t e (ttApplyThemeDom t e d) = ttApplyThemeDom t e d ∧
    applyThemeToHTMLDom t e (applyThemeToHTMLDom t e d) =
      applyThemeToHTMLDom t e d := by
  by_cases h : e.docOk
  · constructor
    · rw [ttApplyThemeDom_eq h, ttApplyThemeDom_eq h]
      dsimp only
      simp only [DomState.mk.injEq]
      constructor
      · exact classPipeline_idem THEME_MARKER_CLASSES (isDarkTheme t)
          (isPremiumTheme t) (themeClass t) dark_not_mem_theme_markers
          (fun hp => premium_marker_mem_theme_markers hp) d.rootClasses
      · by_cases hb : e.bodyOk <;> simp [hb]
    · rw [applyThemeToHTMLDom_eq h, applyThemeToHTMLDom_eq h]
      dsimp only
      simp only [DomState.mk.injEq]
      exact ⟨classPipeline_idem (PREMIUM_THEMES.map themeClass) (isDarkTheme t)
        (isPremiumTheme t) (themeClass t) dark_not_mem_premium_markers
        (fun hp => premium_marker_mem_premium_markers hp) d.rootClasses, trivial⟩
  · have h0 : e.docOk = false := by simpa using h
    constructor <;> simp [ttApplyThemeDom, applyThemeToHTMLDom, h0]

/-- C9: the result of `window.setTheme` — DOM state, stored preference,
dispatched events and issued requests — is identical under every network
outcome of the server sync (success, HTTP error, network failure, malformed
body); only the console logs differ, and at most one request is ever issued
(no retry). -/
theorem c9_sync_failure_only_logged (t : Option String) (e : Env)
    (d : DomState) (st : Option String) (o o' : NetOutcome) :
    (windowSetTheme t e d st o).dom = (windowSetTheme t e d st o').dom ∧
    (windowSetTheme t e d st o).storage = (windowSetTheme t e d st o').storage ∧
    (windowSetTheme t e d st o).events = (windowSetTheme t e d st o').events ∧
    (windowSetTheme t e d st o).requests = (windowSetTheme t e d st o').requests ∧
    (windowSetTheme t e d st o).requests.length ≤ 1 := by
  unfold windowSetTheme updateServerThemePreference
  by_cases h : jsTruthyStr t
  · by_cases ha : e.isAuthenticated <;> simp [h, ha]
  · simp [h]

/-- C10: a falsy argument (`null`, `undefined` or the empty string) makes
`window.setTheme` return immediately: the DOM and storage are unchanged and
no event, request or log is produced. -/
theorem c10_setTheme_falsy_noop (t : Option String) (e : Env) (d : DomState)
    (st : Option String) (o : NetOutcome) (h : jsTruthyStr t = false) :
    windowSetTheme t e d st o =
      { dom := d, storage := st, events := [], requests := [], logs := [] } := by
  simp [windowSetTheme, h]

/-- Witness for C10 at the empty string. -/
theorem c10_setTheme_falsy_noop_witness :
    jsTruthyStr (some "") = false ∧
    windowSetTheme (some "") envFull domSpace none .ok =
      { dom := domSpace, storage := none, events := [], requests := [], logs := [] } :=
  ⟨by decide, c10_setTheme_falsy_noop (some "") envFull domSpace none .ok (by decide)⟩

end AstroBot
